import Mathlib

/-!
Verification of the cerebraschat relay service (main.go).

The service is a single HTTP handler on /api/chat.  We embed it shallowly:
the mutable global conversation is an explicit transcript value that the
handler maps to its successor, the request body decode and the upstream
HTTP call are oracles (an Except value and an UpstreamOutcome value), and
the handler itself is a pure function producing the HTTP response, the new
transcript, and the message list sent upstream (if an upstream call was
made).  Fallible steps of the Go code (json.Decode, json.Marshal,
http.NewRequest, http.DefaultClient.Do, io.ReadAll, json.Unmarshal) are
modelled as explicit error alternatives.  The out-of-range index
apiRes.Choices[0] on an empty choices list is modelled by the outcome
constructor crash.
-/

namespace CerebrasChat

/-- Go struct Message: one conversation turn. -/
structure Message where
  role : String
  content : String
deriving Repr, DecidableEq

/-- Nested message inside an upstream choice (ChatResponse.Choices[i].Message). -/
structure ChoiceMessage where
  role : String
  content : String
deriving Repr, DecidableEq

/-- One element of ChatResponse.Choices. -/
structure Choice where
  index : Int
  finishReason : String
  message : ChoiceMessage
deriving Repr, DecidableEq

/-- Go struct ChatResponse: the decoded upstream completion response. -/
structure ChatResponse where
  id : String
  object : String
  created : Int
  model : String
  choices : List Choice
deriving Repr, DecidableEq

/-- Go struct ChatRequest: the decoded request body. -/
structure ChatRequest where
  message : String
deriving Repr, DecidableEq

/-- Go struct ChatReply: the JSON response body.  The reply field is always
encoded; the error field has omitempty, so none means the field is absent. -/
structure ChatReply where
  reply : String
  error : Option String
deriving Repr, DecidableEq

/-- The fixed persona prompt (Go constant BODHA_ROAST_SYSTEM_PROMPT, a raw
string literal with leading tabs and newlines). -/
def BODHA_ROAST_SYSTEM_PROMPT : String :=
  "\n\tYou are Bodha — a ruthless, sharp-minded AI agent that roasts questions aggressively before answering.\n\n" ++
  "\tABSOLUTE RULES:\n" ++
  "\t- Responses must be in SIMPLE ENGLISH\n" ++
  "\t- Default response length: EXACTLY 1 line.\n" ++
  "\t- No explanations unless the user explicitly asks to \"explain\", \"why\", \"how\", or \"details\".\n" ++
  "\t- If not asked to explain, DO NOT elaborate.\n" ++
  "\t- Short answers are always preferred over helpfulness.\n\n" ++
  "\tROAST BEHAVIOR:\n" ++
  "\t- Roast the QUESTION, not the person.\n" ++
  "\t- One-line roast only.\n" ++
  "\t- Dry, cold, intelligent sarcasm.\n" ++
  "\t- No insults, slurs, or identity-based attacks.\n\n" ++
  "\tQUERY HANDLING:\n" ++
  "\t- Greetings or trivial input (\"hi\", \"hello\", emojis):\n" ++
  "\t→ One-line dismissive response.\n" ++
  "\t- Simple factual questions:\n" ++
  "\t→ One-line direct answer.\n" ++
  "\t- Vague or lazy questions:\n" ++
  "\t→ One-line callout.\n" ++
  "\t- Only explain when explicitly requested.\n\n" ++
  "\tTONE:\n" ++
  "\t- Cold confidence\n" ++
  "\t- Calm dominance\n" ++
  "\t- No friendliness\n" ++
  "\t- No filler words\n\n" ++
  "\tFAIL-SAFE:\n" ++
  "\t- Never exceed ONE line unless explicitly asked to explain.\n" ++
  "\t- Never break character.\n\n"

/-- The system turn that opens every conversation. -/
def systemTurn : Message :=
  { role := "system", content := BODHA_ROAST_SYSTEM_PROMPT }

/-- main.go lines 94-96: the transcript at process start. -/
def initialTranscript : List Message :=
  [systemTurn]

/-- Go resetConversation (main.go lines 209-216). -/
def resetConversation : List Message :=
  [{ role := "system", content := BODHA_ROAST_SYSTEM_PROMPT }]

/-- Go enableCORS (main.go lines 224-235): returns the value of the
Access-Control-Allow-Origin header, set exactly when the Origin header is
one of the three allow-listed origins. -/
def enableCORS (origin : String) : Option String :=
  if origin = "https://dibinxavier.github.io"
      ∨ origin = "http://localhost:5500"
      ∨ origin = "https://bodha-zeta.vercel.app" then
    some origin
  else
    none

/-- The response body written on the wire. -/
inductive RespBody where
  | empty
  | text (s : String)
  | json (r : ChatReply)
deriving Repr, DecidableEq

/-- An HTTP response of the handler: status code, value of the
Access-Control-Allow-Origin header (none when the header is absent), body. -/
structure HttpResponse where
  status : Nat
  allowOrigin : Option String
  body : RespBody
deriving Repr, DecidableEq

/-- Go writeError (main.go lines 218-222): status 500, body the JSON
encoding of ChatReply with Error set (Reply encodes as the empty string). -/
def writeError (allowOrigin : Option String) (msg : String) : HttpResponse :=
  { status := 500, allowOrigin := allowOrigin, body := .json { reply := "", error := some msg } }

/-- An inbound HTTP request as the handler observes it: the method, the
Origin header (Header.Get yields the empty string when absent), and the
result of json.Decode of the body into ChatRequest. -/
structure HttpRequest where
  method : String
  origin : String
  decodedBody : Except String ChatRequest
deriving Repr

/-- The outcome of the upstream HTTP call: a transport error from
http.DefaultClient.Do, an io.ReadAll failure on the response body, or a
received response with its status code, status text, raw body, and the
result of json.Unmarshal of that body into ChatResponse. -/
inductive UpstreamOutcome where
  | netErr (msg : String)
  | readErr (msg : String)
  | resp (statusCode : Nat) (statusText : String) (rawBody : String)
      (decoded : Except String ChatResponse)
deriving Repr

/-- The fallible environment of one request: the result of json.Marshal of
the payload (some msg is an error), the result of http.NewRequest (some msg
is an error), and the upstream call outcome. -/
structure Env where
  marshalErr : Option String
  newRequestErr : Option String
  upstream : UpstreamOutcome
deriving Repr

/-- What one handled request produced: the HTTP outcome (a response, or a
crash on the out-of-range index Choices[0]), the transcript after the
request, and the message list carried by the upstream request when an
upstream call was made. -/
inductive HandlerOutcome where
  | ok (resp : HttpResponse)
  | crash
deriving Repr, DecidableEq

structure HandlerResult where
  outcome : HandlerOutcome
  transcript : List Message
  upstreamSent : Option (List Message)
deriving Repr, DecidableEq

/-- The /api/chat handler (main.go lines 98-195), as a function from the
current transcript, the request, and the environment to a HandlerResult.
Each branch mirrors one return path of the Go handler, in source order. -/
def handleChat (st : List Message) (req : HttpRequest) (env : Env) : HandlerResult :=
  let acao := enableCORS req.origin
  if req.method = "OPTIONS" then
    { outcome := .ok { status := 200, allowOrigin := acao, body := .empty },
      transcript := st, upstreamSent := none }
  else if req.method ≠ "POST" then
    { outcome := .ok { status := 405, allowOrigin := acao, body := .text "Only POST allowed" },
      transcript := st, upstreamSent := none }
  else
    match req.decodedBody with
    | .error e =>
      { outcome := .ok (writeError acao ("Invalid JSON: " ++ e)),
        transcript := st, upstreamSent := none }
    | .ok creq =>
      if creq.message = "" then
        { outcome := .ok (writeError acao "Message is required"),
          transcript := st, upstreamSent := none }
      else
        let st1 := if st.length > 10 then resetConversation else st
        let st2 := st1 ++ [{ role := "user", content := creq.message }]
        match env.marshalErr with
        | some e =>
          { outcome := .ok (writeError acao ("Marshal error: " ++ e)),
            transcript := st2, upstreamSent := none }
        | none =>
          match env.newRequestErr with
          | some e =>
            { outcome := .ok (writeError acao ("Request creation error: " ++ e)),
              transcript := st2, upstreamSent := none }
          | none =>
            match env.upstream with
            | .netErr e =>
              { outcome := .ok (writeError acao ("API call error: " ++ e)),
                transcript := st2, upstreamSent := some st2 }
            | .readErr e =>
              { outcome := .ok (writeError acao ("Read response error: " ++ e)),
                transcript := st2, upstreamSent := some st2 }
            | .resp code statusText rawBody decoded =>
              if code ≠ 200 then
                { outcome := .ok (writeError acao
                    ("API error (" ++ statusText ++ "): " ++ rawBody)),
                  transcript := st2, upstreamSent := some st2 }
              else
                match decoded with
                | .error e =>
                  { outcome := .ok (writeError acao ("Unmarshal error: " ++ e)),
                    transcript := st2, upstreamSent := some st2 }
                | .ok apiRes =>
                  match apiRes.choices with
                  | [] =>
                    { outcome := .crash, transcript := st2, upstreamSent := some st2 }
                  | c :: _ =>
                    let reply := c.message.content
                    let okResp : HttpResponse :=
                      { status := 200, allowOrigin := acao,
                        body := .json { reply := reply, error := none } }
                    { outcome := .ok okResp,
                      transcript := st2 ++ [{ role := "assistant", content := reply }],
                      upstreamSent := some st2 }

/-- Transcript states reachable from process start by any sequence of
handled requests (any request, any environment). -/
inductive Reachable : List Message → Prop where
  | init : Reachable initialTranscript
  | step (req : HttpRequest) (env : Env) {st : List Message} :
      Reachable st → Reachable ((handleChat st req env).transcript)

/-- The transcript invariant of the service: the first turn is the system
turn with the persona prompt, and no later turn has role system. -/
def GoodTranscript (st : List Message) : Prop :=
  st.head? = some systemTurn ∧ ∀ m ∈ st.tail, m.role ≠ "system"

/-- A handler outcome that is a 500 response whose ChatReply body carries a
non-empty error string. -/
def Is500WithError (o : HandlerOutcome) : Prop :=
  ∃ r s, o = HandlerOutcome.ok r ∧ r.status = 500 ∧
    r.body = RespBody.json { reply := "", error := some s } ∧ s ≠ ""

/-- Environments in which the request fails after the user turn has been
appended: a marshal error, a request-construction error, a network error,
an upstream non-200 status, or a malformed upstream response body. -/
def FailsAfterAppend (env : Env) : Prop :=
  (∃ e, env.marshalErr = some e) ∨
  (env.marshalErr = none ∧ ∃ e, env.newRequestErr = some e) ∨
  (env.marshalErr = none ∧ env.newRequestErr = none ∧
    ((∃ e, env.upstream = UpstreamOutcome.netErr e) ∨
     (∃ code stat raw dec,
        env.upstream = UpstreamOutcome.resp code stat raw dec ∧ code ≠ 200) ∨
     (∃ stat raw e,
        env.upstream = UpstreamOutcome.resp 200 stat raw (Except.error e))))

/-- A concrete valid request, used to exhibit reachable transcripts. -/
def demoReq : HttpRequest := ⟨"POST", "http://localhost:5500", Except.ok ⟨"hi"⟩⟩

/-- A concrete upstream choice with content yo. -/
def demoChoice : Choice := ⟨0, "stop", ⟨"assistant", "yo"⟩⟩

/-- A concrete well-formed upstream response with one choice. -/
def demoApiRes : ChatResponse :=
  ⟨"id", "chat.completion", 0, "llama3.1-8b", [demoChoice]⟩

/-- A concrete upstream response that decodes with an empty choices list. -/
def demoEmptyRes : ChatResponse :=
  ⟨"id", "chat.completion", 0, "llama3.1-8b", []⟩

/-- A concrete successful upstream environment. -/
def demoEnvOk : Env :=
  ⟨none, none, .resp 200 "200 OK" "raw" (Except.ok demoApiRes)⟩

/-- A concrete failing upstream environment (transport error). -/
def demoEnvNet : Env := ⟨none, none, .netErr "connection refused"⟩

/-- Transcript after n consecutive successful requests from process start. -/
def demoChainOk : Nat → List Message
  | 0 => initialTranscript
  | n + 1 => (handleChat (demoChainOk n) demoReq demoEnvOk).transcript

/-- Transcript after one network-failing request and then n successful
requests from process start. -/
def demoChainNet : Nat → List Message
  | 0 => (handleChat initialTranscript demoReq demoEnvNet).transcript
  | n + 1 => (handleChat (demoChainNet n) demoReq demoEnvOk).transcript

/-- Every handled request leaves the transcript unchanged, or replaces it by
the truncated transcript with one user turn appended, or by the truncated
transcript with one user turn and one assistant turn appended. -/
lemma handleChat_transcript_cases (st : List Message) (req : HttpRequest) (env : Env) :
    (handleChat st req env).transcript = st ∨
    (∃ u, (handleChat st req env).transcript =
        (if st.length > 10 then resetConversation else st) ++ [⟨"user", u⟩]) ∨
    (∃ u a, (handleChat st req env).transcript =
        ((if st.length > 10 then resetConversation else st) ++ [⟨"user", u⟩])
          ++ [⟨"assistant", a⟩]) := by
  unfold handleChat
  repeat' split
  all_goals first
    | (left; rfl)
    | (right; left; exact ⟨_, rfl⟩)
    | (right; right; exact ⟨_, _, rfl⟩)

/-- Every response the handler produces carries the Access-Control-Allow-Origin
header computed by enableCORS from the Origin header of the request. -/
lemma handleChat_allowOrigin (st : List Message) (req : HttpRequest) (env : Env)
    (r : HttpResponse) (h : (handleChat st req env).outcome = .ok r) :
    r.allowOrigin = enableCORS req.origin := by
  unfold handleChat at h
  repeat' split at h
  all_goals simp_all [writeError]
  all_goals (subst h; rfl)

/-- Whatever the environment does, a message list handed to the upstream call
by a valid POST request is the truncated transcript plus the new user turn. -/
lemma handleChat_upstreamSent_post (st : List Message) (origin msg : String) (env : Env)
    (l : List Message)
    (h : (handleChat st ⟨"POST", origin, Except.ok ⟨msg⟩⟩ env).upstreamSent = some l) :
    l = (if st.length > 10 then resetConversation else st) ++ [⟨"user", msg⟩] := by
  by_cases hne : msg = ""
  · subst hne; simp [handleChat] at h
  · obtain ⟨me, nre, up⟩ := env
    cases me with
    | some e => simp [handleChat, hne] at h
    | none =>
      cases nre with
      | some e => simp [handleChat, hne] at h
      | none =>
        cases up with
        | netErr e =>
          simp only [handleChat, hne] at h
          simp_all
        | readErr e =>
          simp only [handleChat, hne] at h
          simp_all
        | resp code stat raw dec =>
          by_cases hcode : code = 200
          · subst hcode
            cases dec with
            | error e =>
              simp only [handleChat, hne] at h
              simp_all
            | ok apiRes =>
              cases hch : apiRes.choices with
              | nil =>
                simp only [handleChat, hne, hch] at h
                simp_all
              | cons c cs =>
                simp only [handleChat, hne, hch] at h
                simp_all
          · simp only [handleChat, hne, hcode] at h
            simp_all

/-- A string with a non-empty left part stays non-empty after concatenation. -/
lemma append_ne_empty_left (a b : String) (ha : a.length ≠ 0) : a ++ b ≠ "" := by
  intro hc
  have h2 := congrArg String.length hc
  rw [String.length_append] at h2
  simp at h2
  exact ha h2.1

lemma goodTranscript_initial : GoodTranscript initialTranscript := by
  constructor
  · rfl
  · intro m hm
    simp [initialTranscript, systemTurn] at hm

lemma goodTranscript_reset : GoodTranscript resetConversation := by
  constructor
  · rfl
  · intro m hm
    simp [resetConversation] at hm

lemma goodTranscript_append (st : List Message) (h : GoodTranscript st)
    (rest : List Message)
    (hrest : ∀ m ∈ rest, m.role = "user" ∨ m.role = "assistant") :
    GoodTranscript (st ++ rest) := by
  obtain ⟨h1, h2⟩ := h
  cases st with
  | nil => simp at h1
  | cons x xs =>
    constructor
    · simpa using h1
    · intro m hm
      simp only [List.cons_append, List.tail_cons, List.mem_append] at hm
      rcases hm with hm | hm
      · exact h2 m (by simpa using hm)
      · rcases hrest m hm with hr | hr <;> simp [hr]

/-- Every reachable transcript satisfies the system-turn invariant. -/
lemma reachable_goodTranscript (st : List Message) (h : Reachable st) :
    GoodTranscript st := by
  induction h with
  | init => exact goodTranscript_initial
  | step req env hr ih =>
    rename_i st'
    rcases handleChat_transcript_cases st' req env with hc | ⟨u, hc⟩ | ⟨u, a, hc⟩
    · rw [hc]; exact ih
    · rw [hc]
      refine goodTranscript_append _ ?_ _ ?_
      · split
        · exact goodTranscript_reset
        · exact ih
      · intro m hm; simp at hm; simp [hm]
    · rw [hc]
      refine goodTranscript_append _ (goodTranscript_append _ ?_ _ ?_) _ ?_
      · split
        · exact goodTranscript_reset
        · exact ih
      · intro m hm; simp at hm; simp [hm]
      · intro m hm; simp at hm; simp [hm]

/-- Every reachable transcript has at most 12 turns. -/
lemma reachable_length_le (st : List Message) (h : Reachable st) :
    st.length ≤ 12 := by
  induction h with
  | init => simp [initialTranscript]
  | step req env hr ih =>
    rename_i st'
    rcases handleChat_transcript_cases st' req env with hc | ⟨u, hc⟩ | ⟨u, a, hc⟩ <;>
      rw [hc] <;> try exact ih
    all_goals
      simp only [List.length_append, List.length_cons, List.length_nil]
    all_goals split
    all_goals simp [resetConversation]
    all_goals omega

lemma reachable_demoChainOk (n : Nat) : Reachable (demoChainOk n) := by
  induction n with
  | zero => exact Reachable.init
  | succ n ih => exact Reachable.step demoReq demoEnvOk ih

lemma reachable_demoChainNet (n : Nat) : Reachable (demoChainNet n) := by
  induction n with
  | zero => exact Reachable.step demoReq demoEnvNet Reachable.init
  | succ n ih => exact Reachable.step demoReq demoEnvOk ih

/-- C1: on a valid POST request, when the transcript holds more than 10
turns, any message list handed to the upstream call is exactly the system
turn followed by the new user turn, i.e. 2 messages; when the transcript
holds at most 10 turns, it is not reset and any message list handed to the
upstream call is the existing transcript with the user turn appended. -/
theorem C1_truncation_before_upstream (st : List Message) (origin msg : String)
    (env : Env) (_hne : msg ≠ "") :
    (st.length > 10 →
      ∀ l, (handleChat st ⟨"POST", origin, Except.ok ⟨msg⟩⟩ env).upstreamSent = some l →
        l = [systemTurn, ⟨"user", msg⟩] ∧ l.length = 2) ∧
    (st.length ≤ 10 →
      ∀ l, (handleChat st ⟨"POST", origin, Except.ok ⟨msg⟩⟩ env).upstreamSent = some l →
        l = st ++ [⟨"user", msg⟩]) := by
  constructor
  · intro h10 l hl
    have h := handleChat_upstreamSent_post st origin msg env l hl
    rw [if_pos h10] at h
    subst h
    exact ⟨rfl, rfl⟩
  · intro h10 l hl
    have h := handleChat_upstreamSent_post st origin msg env l hl
    rwa [if_neg (Nat.not_lt.mpr h10)] at h

theorem C1_witness :
    [systemTurn, Message.mk "user" "hi"] = [systemTurn, ⟨"user", "hi"⟩] ∧
    ([systemTurn, Message.mk "user" "hi"]).length = 2 :=
  (C1_truncation_before_upstream (demoChainOk 5) "http://localhost:5500" "hi"
      demoEnvNet (by decide)).1 (by decide)
    [systemTurn, ⟨"user", "hi"⟩] (by rfl)

/-- C2: on a valid POST request, when the upstream returns a well-formed 200
response whose first choice content is R, the handler answers 200 with a
ChatReply carrying R and the transcript afterwards is the pre-request
transcript (post-truncation) with exactly one user turn and one assistant
turn appended, in that order. -/
theorem C2_success_reply_and_append (st : List Message)
    (origin msg stat raw R : String) (apiRes : ChatResponse)
    (c : Choice) (cs : List Choice) (hne : msg ≠ "")
    (hch : apiRes.choices = c :: cs) (hR : c.message.content = R) :
    (handleChat st ⟨"POST", origin, Except.ok ⟨msg⟩⟩
        ⟨none, none, .resp 200 stat raw (Except.ok apiRes)⟩).outcome
      = .ok ⟨200, enableCORS origin, .json ⟨R, none⟩⟩ ∧
    (handleChat st ⟨"POST", origin, Except.ok ⟨msg⟩⟩
        ⟨none, none, .resp 200 stat raw (Except.ok apiRes)⟩).transcript
      = (if st.length > 10 then resetConversation else st)
          ++ [⟨"user", msg⟩, ⟨"assistant", R⟩] := by
  simp only [handleChat, hch, hR]
  simp [hne]

theorem C2_witness :
    (handleChat initialTranscript ⟨"POST", "http://localhost:5500", Except.ok ⟨"hi"⟩⟩
        ⟨none, none, .resp 200 "200 OK" "raw" (Except.ok demoApiRes)⟩).outcome
      = .ok ⟨200, enableCORS "http://localhost:5500", .json ⟨"yo", none⟩⟩ ∧
    (handleChat initialTranscript ⟨"POST", "http://localhost:5500", Except.ok ⟨"hi"⟩⟩
        ⟨none, none, .resp 200 "200 OK" "raw" (Except.ok demoApiRes)⟩).transcript
      = (if initialTranscript.length > 10 then resetConversation else initialTranscript)
          ++ [⟨"user", "hi"⟩, ⟨"assistant", "yo"⟩] :=
  C2_success_reply_and_append initialTranscript "http://localhost:5500" "hi"
    "200 OK" "raw" "yo" demoApiRes demoChoice [] (by decide) rfl rfl

/-- C3: on a valid POST request, when the upstream returns 200 and the body
decodes to a response with an empty choices list, the access of the first
choice is out of range: the handler crashes and produces no response at all,
neither a 500 error nor a reply. -/
theorem C3_empty_choices_crash (st : List Message) (origin msg stat raw : String)
    (apiRes : ChatResponse) (hne : msg ≠ "") (hch : apiRes.choices = []) :
    (handleChat st ⟨"POST", origin, Except.ok ⟨msg⟩⟩
        ⟨none, none, .resp 200 stat raw (Except.ok apiRes)⟩).outcome
      = HandlerOutcome.crash ∧
    ∀ r, (handleChat st ⟨"POST", origin, Except.ok ⟨msg⟩⟩
        ⟨none, none, .resp 200 stat raw (Except.ok apiRes)⟩).outcome
      ≠ HandlerOutcome.ok r := by
  have h : (handleChat st ⟨"POST", origin, Except.ok ⟨msg⟩⟩
      ⟨none, none, .resp 200 stat raw (Except.ok apiRes)⟩).outcome
        = HandlerOutcome.crash := by
    simp only [handleChat, hch]
    simp [hne]
  exact ⟨h, fun r hr => by rw [h] at hr; exact HandlerOutcome.noConfusion hr⟩

theorem C3_witness :
    (handleChat initialTranscript ⟨"POST", "", Except.ok ⟨"hi"⟩⟩
        ⟨none, none, .resp 200 "200 OK" "raw" (Except.ok demoEmptyRes)⟩).outcome
      = HandlerOutcome.crash :=
  (C3_empty_choices_crash initialTranscript "" "hi" "200 OK" "raw" demoEmptyRes
      (by decide) rfl).1

/-- C4: a POST request whose body fails to decode, or decodes to an empty
message (which also covers an absent message field, since decoding leaves
the zero value), is answered 500 with a non-empty error string, makes no
upstream call, and leaves the transcript unchanged. -/
theorem C4_invalid_input_rejected (st : List Message) (origin : String) (env : Env)
    (b : Except String ChatRequest)
    (hb : (∃ e, b = Except.error e) ∨ b = Except.ok ⟨""⟩) :
    ∃ r s, (handleChat st ⟨"POST", origin, b⟩ env).outcome = .ok r ∧
      r.status = 500 ∧ r.body = RespBody.json ⟨"", some s⟩ ∧ s ≠ "" ∧
      (handleChat st ⟨"POST", origin, b⟩ env).transcript = st ∧
      (handleChat st ⟨"POST", origin, b⟩ env).upstreamSent = none := by
  rcases hb with ⟨e, rfl⟩ | rfl
  · refine ⟨writeError (enableCORS origin) ("Invalid JSON: " ++ e),
      "Invalid JSON: " ++ e, ?_, rfl, rfl, ?_, ?_, ?_⟩
    · simp [handleChat]
    · exact append_ne_empty_left _ _ (by decide)
    · simp [handleChat]
    · simp [handleChat]
  · refine ⟨writeError (enableCORS origin) "Message is required",
      "Message is required", ?_, rfl, rfl, by decide, ?_, ?_⟩
    · simp [handleChat]
    · simp [handleChat]
    · simp [handleChat]

theorem C4_witness :
    ∃ r s, (handleChat initialTranscript
        ⟨"POST", "", Except.error "unexpected end of JSON input"⟩ demoEnvNet).outcome
          = .ok r ∧
      r.status = 500 ∧ r.body = RespBody.json ⟨"", some s⟩ ∧ s ≠ "" ∧
      (handleChat initialTranscript
        ⟨"POST", "", Except.error "unexpected end of JSON input"⟩ demoEnvNet).transcript
          = initialTranscript ∧
      (handleChat initialTranscript
        ⟨"POST", "", Except.error "unexpected end of JSON input"⟩ demoEnvNet).upstreamSent
          = none :=
  C4_invalid_input_rejected initialTranscript "" demoEnvNet
    (Except.error "unexpected end of JSON input")
    (Or.inl ⟨"unexpected end of JSON input", rfl⟩)

/-- C5: in every reachable transcript state the first turn is the system
turn holding the fixed persona prompt, and no later turn has role system. -/
theorem C5_system_turn_invariant (st : List Message) (h : Reachable st) :
    st.head? = some systemTurn ∧ ∀ m ∈ st.tail, m.role ≠ "system" :=
  reachable_goodTranscript st h

theorem C5_witness :
    initialTranscript.head? = some systemTurn ∧
    ∀ m ∈ initialTranscript.tail, m.role ≠ "system" :=
  C5_system_turn_invariant initialTranscript Reachable.init

/-- C6: an upstream non-200 status is answered 500 with an error string
that contains the upstream status text and the raw upstream body; and every
non-success path — malformed request JSON, empty message, marshal failure,
request-construction failure, network failure, upstream non-200, malformed
upstream response JSON — is surfaced as a 500 response whose ChatReply body
carries a non-empty error string. -/
theorem C6_errors_surfaced_as_500 (st : List Message) (origin msg : String)
    (hne : msg ≠ "") :
    (∀ (code : Nat) (stat raw : String) (dec : Except String ChatResponse),
      code ≠ 200 →
      (handleChat st ⟨"POST", origin, Except.ok ⟨msg⟩⟩
          ⟨none, none, .resp code stat raw dec⟩).outcome
        = .ok (writeError (enableCORS origin) ("API error (" ++ stat ++ "): " ++ raw)) ∧
      (∃ pre post, "API error (" ++ stat ++ "): " ++ raw = pre ++ stat ++ post) ∧
      (∃ pre post, "API error (" ++ stat ++ "): " ++ raw = pre ++ raw ++ post)) ∧
    (∀ (env : Env) (e : String),
      Is500WithError (handleChat st ⟨"POST", origin, Except.error e⟩ env).outcome) ∧
    (∀ env : Env,
      Is500WithError (handleChat st ⟨"POST", origin, Except.ok ⟨""⟩⟩ env).outcome) ∧
    (∀ (e : String) (nre : Option String) (up : UpstreamOutcome),
      Is500WithError
        (handleChat st ⟨"POST", origin, Except.ok ⟨msg⟩⟩ ⟨some e, nre, up⟩).outcome) ∧
    (∀ (e : String) (up : UpstreamOutcome),
      Is500WithError
        (handleChat st ⟨"POST", origin, Except.ok ⟨msg⟩⟩ ⟨none, some e, up⟩).outcome) ∧
    (∀ e : String,
      Is500WithError
        (handleChat st ⟨"POST", origin, Except.ok ⟨msg⟩⟩ ⟨none, none, .netErr e⟩).outcome) ∧
    (∀ (code : Nat) (stat raw : String) (dec : Except String ChatResponse),
      code ≠ 200 →
      Is500WithError
        (handleChat st ⟨"POST", origin, Except.ok ⟨msg⟩⟩
          ⟨none, none, .resp code stat raw dec⟩).outcome) ∧
    (∀ (stat raw e : String),
      Is500WithError
        (handleChat st ⟨"POST", origin, Except.ok ⟨msg⟩⟩
          ⟨none, none, .resp 200 stat raw (Except.error e)⟩).outcome) := by
  refine ⟨?_, ?_, ?_, ?_, ?_, ?_, ?_, ?_⟩
  · intro code stat raw dec hcode
    refine ⟨by simp [handleChat, hne, hcode], ⟨"API error (", "): " ++ raw, ?_⟩,
      ⟨"API error (" ++ stat ++ "): ", "", ?_⟩⟩
    · simp [String.append_assoc]
    · simp
  · intro env e
    refine ⟨writeError (enableCORS origin) ("Invalid JSON: " ++ e),
      "Invalid JSON: " ++ e, by simp [handleChat], rfl, rfl, ?_⟩
    exact append_ne_empty_left _ _ (by decide)
  · intro env
    exact ⟨writeError (enableCORS origin) "Message is required",
      "Message is required", by simp [handleChat], rfl, rfl, by decide⟩
  · intro e nre up
    refine ⟨writeError (enableCORS origin) ("Marshal error: " ++ e),
      "Marshal error: " ++ e, by simp [handleChat, hne], rfl, rfl, ?_⟩
    exact append_ne_empty_left _ _ (by decide)
  · intro e up
    refine ⟨writeError (enableCORS origin) ("Request creation error: " ++ e),
      "Request creation error: " ++ e, by simp [handleChat, hne], rfl, rfl, ?_⟩
    exact append_ne_empty_left _ _ (by decide)
  · intro e
    refine ⟨writeError (enableCORS origin) ("API call error: " ++ e),
      "API call error: " ++ e, by simp [handleChat, hne], rfl, rfl, ?_⟩
    exact append_ne_empty_left _ _ (by decide)
  · intro code stat raw dec hcode
    refine ⟨writeError (enableCORS origin) ("API error (" ++ stat ++ "): " ++ raw),
      "API error (" ++ stat ++ "): " ++ raw,
      by simp [handleChat, hne, hcode], rfl, rfl, ?_⟩
    have hassoc : "API error (" ++ stat ++ "): " ++ raw
        = "API error (" ++ (stat ++ ("): " ++ raw)) := by
      simp [String.append_assoc]
    rw [hassoc]
    exact append_ne_empty_left _ _ (by decide)
  · intro stat raw e
    refine ⟨writeError (enableCORS origin) ("Unmarshal error: " ++ e),
      "Unmarshal error: " ++ e, by simp [handleChat, hne], rfl, rfl, ?_⟩
    exact append_ne_empty_left _ _ (by decide)

theorem C6_witness :
    Is500WithError (handleChat initialTranscript ⟨"POST", "", Except.ok ⟨"hi"⟩⟩
        ⟨none, none, .netErr "connection refused"⟩).outcome :=
  (C6_errors_surfaced_as_500 initialTranscript "" "hi"
      (by decide)).2.2.2.2.2.1 "connection refused"

/-- C7: an OPTIONS request from any origin is answered 200 with an empty
body; and every response of the handler carries an
Access-Control-Allow-Origin header equal to the Origin header exactly when
that origin is one of the three allow-listed ones, and no such header for
any other origin. -/
theorem C7_cors_behavior (st : List Message) (env : Env) (origin : String)
    (b : Except String ChatRequest) :
    ((handleChat st ⟨"OPTIONS", origin, b⟩ env).outcome
        = .ok ⟨200, enableCORS origin, RespBody.empty⟩ ∧
      (handleChat st ⟨"OPTIONS", origin, b⟩ env).transcript = st) ∧
    (∀ (method : String) (r : HttpResponse),
      (handleChat st ⟨method, origin, b⟩ env).outcome = .ok r →
      ((origin = "https://dibinxavier.github.io" ∨ origin = "http://localhost:5500"
          ∨ origin = "https://bodha-zeta.vercel.app") → r.allowOrigin = some origin) ∧
      (origin ≠ "https://dibinxavier.github.io" → origin ≠ "http://localhost:5500" →
        origin ≠ "https://bodha-zeta.vercel.app" → r.allowOrigin = none)) := by
  constructor
  · constructor
    · simp [handleChat]
    · simp [handleChat]
  · intro method r h
    have hao := handleChat_allowOrigin st ⟨method, origin, b⟩ env r h
    constructor
    · intro hor
      rw [hao]
      unfold enableCORS
      rw [if_pos hor]
    · intro h1 h2 h3
      rw [hao]
      unfold enableCORS
      simp [h1, h2, h3]

theorem C7_witness :
    (handleChat initialTranscript
        ⟨"OPTIONS", "https://dibinxavier.github.io", Except.ok ⟨"hi"⟩⟩ demoEnvNet).outcome
      = .ok ⟨200, some "https://dibinxavier.github.io", RespBody.empty⟩ := by
  have h := (C7_cors_behavior initialTranscript demoEnvNet
      "https://dibinxavier.github.io" (Except.ok ⟨"hi"⟩)).1.1
  simpa [enableCORS] using h

/-- C8: a request on the chat route whose method is neither POST nor
OPTIONS is answered 405 and the transcript is unchanged. -/
theorem C8_method_not_allowed (st : List Message) (origin method : String)
    (b : Except String ChatRequest) (env : Env)
    (h1 : method ≠ "OPTIONS") (h2 : method ≠ "POST") :
    (handleChat st ⟨method, origin, b⟩ env).outcome
      = .ok ⟨405, enableCORS origin, RespBody.text "Only POST allowed"⟩ ∧
    (handleChat st ⟨method, origin, b⟩ env).transcript = st := by
  constructor
  · simp [handleChat, h1, h2]
  · simp [handleChat, h1, h2]

theorem C8_witness :
    (handleChat initialTranscript ⟨"GET", "", Except.ok ⟨"hi"⟩⟩ demoEnvNet).outcome
      = .ok ⟨405, enableCORS "", RespBody.text "Only POST allowed"⟩ ∧
    (handleChat initialTranscript ⟨"GET", "", Except.ok ⟨"hi"⟩⟩ demoEnvNet).transcript
      = initialTranscript :=
  C8_method_not_allowed initialTranscript "" "GET" (Except.ok ⟨"hi"⟩) demoEnvNet
    (by decide) (by decide)

/-- C9: on a valid POST request, every failure that occurs after the user
turn has been appended — marshal error, request-construction error, network
error, upstream non-200 status, or malformed upstream response body — still
yields a 500 response, and the appended user turn remains in the
transcript. -/
theorem C9_user_turn_retained_on_failure (st : List Message) (origin msg : String)
    (env : Env) (hne : msg ≠ "") (hf : FailsAfterAppend env) :
    ∃ r, (handleChat st ⟨"POST", origin, Except.ok ⟨msg⟩⟩ env).outcome = .ok r ∧
      r.status = 500 ∧
      (handleChat st ⟨"POST", origin, Except.ok ⟨msg⟩⟩ env).transcript
        = (if st.length > 10 then resetConversation else st) ++ [⟨"user", msg⟩] := by
  obtain ⟨me, nre, up⟩ := env
  simp only [FailsAfterAppend] at hf
  rcases hf with ⟨e, he⟩ | ⟨hm, e, he⟩ | ⟨hm, hn, hup⟩
  · subst he
    exact ⟨writeError (enableCORS origin) ("Marshal error: " ++ e),
      by simp [handleChat, hne], rfl, by simp [handleChat, hne]⟩
  · subst hm
    subst he
    exact ⟨writeError (enableCORS origin) ("Request creation error: " ++ e),
      by simp [handleChat, hne], rfl, by simp [handleChat, hne]⟩
  · subst hm
    subst hn
    rcases hup with ⟨e, he⟩ | ⟨code, stat, raw, dec, he, hcode⟩ | ⟨stat, raw, e, he⟩
    · subst he
      exact ⟨writeError (enableCORS origin) ("API call error: " ++ e),
        by simp [handleChat, hne], rfl, by simp [handleChat, hne]⟩
    · subst he
      exact ⟨writeError (enableCORS origin) ("API error (" ++ stat ++ "): " ++ raw),
        by simp [handleChat, hne, hcode], rfl, by simp [handleChat, hne, hcode]⟩
    · subst he
      exact ⟨writeError (enableCORS origin) ("Unmarshal error: " ++ e),
        by simp [handleChat, hne], rfl, by simp [handleChat, hne]⟩

theorem C9_witness :
    ∃ r, (handleChat initialTranscript ⟨"POST", "", Except.ok ⟨"hi"⟩⟩ demoEnvNet).outcome
        = .ok r ∧
      r.status = 500 ∧
      (handleChat initialTranscript ⟨"POST", "", Except.ok ⟨"hi"⟩⟩ demoEnvNet).transcript
        = (if initialTranscript.length > 10 then resetConversation else initialTranscript)
            ++ [⟨"user", "hi"⟩] :=
  C9_user_turn_retained_on_failure initialTranscript "" "hi" demoEnvNet (by decide)
    (Or.inr (Or.inr ⟨rfl, rfl, Or.inl ⟨"connection refused", rfl⟩⟩))

/-- C10: every reachable transcript has at most 12 turns, and transcripts of
exactly 11 and exactly 12 turns are reachable, so the effective cap is 12
rather than the threshold 10 used by the reset check. -/
theorem C10_length_cap (st : List Message) (h : Reachable st) :
    st.length ≤ 12 ∧
    (∃ t, Reachable t ∧ t.length = 11) ∧
    (∃ t, Reachable t ∧ t.length = 12) :=
  ⟨reachable_length_le st h,
   ⟨demoChainOk 5, reachable_demoChainOk 5, by rfl⟩,
   ⟨demoChainNet 5, reachable_demoChainNet 5, by rfl⟩⟩

theorem C10_witness :
    initialTranscript.length ≤ 12 ∧
    (∃ t, Reachable t ∧ t.length = 11) ∧
    (∃ t, Reachable t ∧ t.length = 12) :=
  C10_length_cap initialTranscript Reachable.init

end CerebrasChat
